import Mathlib

/-!
Shallow embedding of the PypeIt flux-calibration core (`deprecated/flux.py`)
and proofs about it.

Conventions used throughout:
* numpy float arrays are embedded as `List ℚ` (exact rational arithmetic; the
  claims under study are about branch structure and exact comparisons, not
  float rounding);
* boolean numpy masks are `List Bool`;
* a Python function that can call `msgs.error` (which raises) is embedded as
  an `Except String` value;
* transcendental float operations (`np.log10`, `10.0 ** x`) and
  library collaborators whose code lives outside the embedded module
  (`utils.robust_polyfit_djs`, `utils.func_val`, `pydl.bspline`,
  `pydl.iterfit`, `scipy.interpolate.interp1d` in `'nearest'`/`'extrapolate'`
  modes, `wavemodel.conv2res`, the catalog/data files read from disk) are
  taken as explicit function/data parameters, so every theorem quantifies
  over all of their behaviours;
* the real-valued correction `10.0 ** (0.4 * mag * airmass)` is additionally
  embedded exactly over `ℝ` (`Real.rpow`) where a claim is about its algebra.
-/

deriving instance DecidableEq for Except

namespace PypeItFlux

/-- `TINY = 1e-15` from the module header. -/
def TINY : ℚ := 1 / 10 ^ 15

/-- `MAGFUNC_MAX = 25.0` from the module header. -/
def MAGFUNC_MAX : ℚ := 25

/-- `MAGFUNC_MIN = -25.0` from the module header. -/
def MAGFUNC_MIN : ℚ := -25

/-- Numpy `np.min` on a nonempty array; `0` stands in for the error numpy
raises on an empty array (never reached in the theorems below). -/
def npMin (xs : List ℚ) : ℚ :=
  match xs with
  | [] => 0
  | x :: r => r.foldl min x

/-- Numpy `np.max` on a nonempty array; `0` stands in for the empty-array
error, as in `npMin`. -/
def npMax (xs : List ℚ) : ℚ :=
  match xs with
  | [] => 0
  | x :: r => r.foldl max x

/-- Numpy `np.median`: sort, take the middle element (odd length) or the mean
of the two middle elements (even length). -/
def npMedian (xs : List ℚ) : ℚ :=
  let s := xs.insertionSort (· ≤ ·)
  let n := s.length
  if n = 0 then 0
  else if n % 2 = 1 then s.getD (n / 2) 0
  else (s.getD (n / 2 - 1) 0 + s.getD (n / 2) 0) / 2

/-- Numpy `np.roll(xs, 1)`: rotate right by one. -/
def roll1 (xs : List ℚ) : List ℚ :=
  match xs.getLast? with
  | none => []
  | some l => l :: xs.dropLast

/-- A boolean mask seen as the 0/1 float array numpy broadcasts it to. -/
def boolToRat (b : Bool) : ℚ := if b then 1 else 0

/-- Number of `true` entries of a mask (`np.sum` on booleans). -/
def countTrue (m : List Bool) : ℕ := (m.filter id).length

/-! ## Extinction correction (`extinction_correction`, flux.py lines 658-701) -/

/-- The extinction table loaded by `load_extinction_data`: columns `wave` and
`mag_ext`.  The table is read from a site-specific data file, so it enters the
embedding as data. -/
structure ExtinctTable where
  wave : List ℚ
  mag_ext : List ℚ
deriving DecidableEq

/-- Piecewise-linear interpolation over consecutive `(x, y)` knots with value
`0` outside the covered span: the behaviour of
`scipy.interpolate.interp1d(xs, ys, bounds_error=False, fill_value=0.)`. -/
def interpSegs : List (ℚ × ℚ) → ℚ → ℚ
  | [], _ => 0
  | [(x0, y0)], x => if x = x0 then y0 else 0
  | (x0, y0) :: (x1, y1) :: rest, x =>
    if x < x0 then 0
    else if x ≤ x1 then y0 + (y1 - y0) * (x - x0) / (x1 - x0)
    else interpSegs ((x1, y1) :: rest) x

/-- `scipy.interpolate.interp1d(xs, ys, bounds_error=False, fill_value=0.)(x)`
for sorted knots `xs`. -/
def interp1d_fill0 (xs ys : List ℚ) (x : ℚ) : ℚ :=
  interpSegs (xs.zip ys) x

/-- The out-of-range patching of `mag_ext` in `extinction_correction`
(flux.py lines 686-697), kept with the source's `if/elif/elif/else` chain:
`gdv` are the indices with positive interpolated magnitude; if the first good
index is not `0` the low-wavelength end is overwritten with the first good
value, OTHERWISE if the last good index is not the final index the
high-wavelength end is overwritten with the last good value. -/
def adjust_mag_edges (mag : List ℚ) : List ℚ :=
  let gdv := (mag.enum.filter (fun p => decide (p.2 > 0))).map (fun p => p.1)
  match gdv.head?, gdv.getLast? with
  | none, _ => mag
  | some _, none => mag
  | some g0, some gl =>
    if g0 ≠ 0 then
      mag.enum.map (fun p => if p.1 < g0 then mag.getD g0 0 else p.2)
    else if gl ≠ mag.length - 1 then
      mag.enum.map (fun p => if p.1 > gl then mag.getD gl 0 else p.2)
    else
      mag

/-- `extinction_correction` up to (but not including) the final
`10.0 ** (0.4 * mag_ext * airmass)` evaluation: the airmass check, the
interpolation of the extinction table onto the query wavelengths, and the
edge adjustment.  Returns the adjusted `mag_ext` array. -/
def extinction_correction_mag (wave : List ℚ) (airmass : ℚ) (ext : ExtinctTable) :
    Except String (List ℚ) :=
  if airmass < 1 then Except.error "Bad airmass value in extinction_correction"
  else Except.ok (adjust_mag_edges (wave.map (interp1d_fill0 ext.wave ext.mag_ext)))

/-- The final evaluation `flux_corr = 10.0 ** (0.4 * mag_ext * airmass)`
(flux.py line 699), embedded exactly over the reals. -/
noncomputable def ext_flux_corr (mag airmass : ℚ) : ℝ :=
  (10 : ℝ) ^ ((0.4 : ℝ) * (mag : ℝ) * (airmass : ℝ))

/-- `extinction_correction(wave, airmass, extinct)`: the real-valued
multiplicative flux-correction array. -/
noncomputable def extinction_correction (wave : List ℚ) (airmass : ℚ)
    (ext : ExtinctTable) : Except String (List ℝ) :=
  (extinction_correction_mag wave airmass ext).map
    (fun mags => mags.map (fun m => ext_flux_corr m airmass))

/-- `extinction_correction` with the float power `10.0 ** x` abstracted as a
function parameter `pow10`, for use inside the computable embeddings of the
callers (`generate_sensfunc`, `apply_sensfunc_spec`). -/
def extinction_correction_q (pow10 : ℚ → ℚ) (wave : List ℚ) (airmass : ℚ)
    (ext : ExtinctTable) : Except String (List ℚ) :=
  (extinction_correction_mag wave airmass ext).map
    (fun mags => mags.map (fun m => pow10 (0.4 * m * airmass)))

/-! ## Masking engine (`get_mask`, flux.py lines 331-454) -/

/-- Balmer-series line wavelengths masked by `get_mask` (flux.py line 384). -/
def lines_balm : List ℚ :=
  [3836.4, 3969.6, 3890.1, 4102.8, 4102.8, 4341.6, 4862.7, 5407.0,
   6564.6, 8224.8, 8239.2]

/-- Paschen-series line wavelengths (flux.py line 393). -/
def lines_pasc : List ℚ :=
  [8203.6, 8440.3, 8469.6, 8504.8, 8547.7, 8600.8, 8667.4, 8752.9,
   8865.2, 9017.4, 9229.0, 9546.0, 10049.4, 10938.1, 12818.1, 18751.0]

/-- Brackett-series line wavelengths (flux.py line 403). -/
def lines_brac : List ℚ :=
  [14584.0, 18174.0, 19446.0, 21655.0, 26252.0, 40512.0]

/-- Pfund-series line wavelengths (flux.py line 411). -/
def lines_pfund : List ℚ :=
  [22788.0, 32961.0, 37395.0, 46525.0, 74578.0]

/-- All hydrogen recombination lines that `get_mask` loops over; the four
per-series loops each set `msk_star[|wave - line| <= BALM_MASK_WID] = False`,
which is the same as one pass over the concatenation. -/
def recomb_lines : List ℚ := lines_balm ++ lines_pasc ++ lines_brac ++ lines_pfund

/-- One pixel of `msk_star`: `true` (good) unless the wavelength is within
`BALM_MASK_WID` of some recombination line, boundary inclusive. -/
def starPixelGood (wid w : ℚ) : Bool :=
  ! recomb_lines.any (fun l => decide (|w - l| ≤ wid))

/-- Membership in one of the five literal optical telluric bands
(flux.py lines 418-422). -/
def tellOptBand (w : ℚ) : Bool :=
  (decide (6270 ≤ w) && decide (w ≤ 6290)) ||
  (decide (6850 ≤ w) && decide (w ≤ 6960)) ||
  (decide (7580 ≤ w) && decide (w ≤ 7750)) ||
  (decide (7160 ≤ w) && decide (w ≤ 7340)) ||
  (decide (8150 ≤ w) && decide (w ≤ 8250))

/-- One pixel of `msk_bad`: starts `true` and is cleared when `ivar <= 0`,
`flux <= 0`, the pixel is the first or last of the array, or the wavelength is
at or below the 3000 Angstrom atmospheric cutoff (flux.py lines 360-377;
note `atms_cutoff = wave_star <= 3000.0`). -/
def badPixelGood (n i : ℕ) (w f v : ℚ) : Bool :=
  !(decide (v ≤ 0) || decide (f ≤ 0) || decide (i = 0) || decide (i = n - 1) ||
    decide (w ≤ 3000))

/-- The three masks returned by `get_mask`. -/
structure MaskTriple where
  bad : List Bool
  star : List Bool
  tell : List Bool
deriving DecidableEq

/-- `get_mask(wave_star, flux_star, ivar_star, mask_star, mask_tell,
BALM_MASK_WID, trans_thresh)`.  All arrays share the observed grid
(spec section 3 invariant), so pixel `i` pairs `wave[i]`, `flux[i]`,
`ivar[i]`.  The near-infrared telluric branch (only taken when the grid
extends past 9100 Angstrom) reads an atmospheric-transmission file, convolves
it with `conv2res` and interpolates it onto the grid; that convolved,
interpolated transmission enters here as the parameter `trans_final`, and the
branch then clears pixels with `trans_final < trans_thresh` and
`wave > 9100`. -/
def get_mask (wave flux ivar : List ℚ) (mask_star mask_tell : Bool)
    (BALM_MASK_WID trans_thresh : ℚ) (trans_final : List ℚ) : MaskTriple :=
  let n := wave.length
  let bad := (wave.zip (flux.zip ivar)).enum.map
    (fun p => badPixelGood n p.1 p.2.1 p.2.2.1 p.2.2.2)
  let star :=
    if mask_star then wave.map (starPixelGood BALM_MASK_WID)
    else List.replicate n true
  let tell :=
    if mask_tell then
      let opt := wave.map (fun w => ! tellOptBand w)
      if npMax wave > 9100 then
        List.zipWith (fun p tr =>
            p.2 && !(decide (tr < trans_thresh) && decide (p.1 > 9100)))
          (wave.zip opt) trans_final
      else opt
    else List.replicate n true
  ⟨bad, star, tell⟩

/-! ## Breakpoint spacing for the bspline fit
(`standard_sensfunc`, flux.py lines 576-586) -/

/-- `std_pix = np.median(np.abs(wave_obs - np.roll(wave_obs, 1)))`:
the median pixel spacing (including the wrap-around difference that
`np.roll` introduces). -/
def std_pix_of (wave : List ℚ) : ℚ :=
  npMedian (List.zipWith (fun a b => |a - b|) wave (roll1 wave))

/-- `std_res = np.median(wave_obs / resolution)`: the median spectral
resolution element in Angstrom. -/
def std_res_of (wave : List ℚ) (resolution : ℚ) : ℚ :=
  npMedian (wave.map (fun w => w / resolution))

/-- The `nresln` recomputation (flux.py lines 580-583): when
`nresln * std_res < std_pix` the code replaces `nresln` by
`std_res / std_pix`. -/
def nresln_update (nresln std_res std_pix : ℚ) : ℚ :=
  if nresln * std_res < std_pix then std_res / std_pix else nresln

/-- The bspline breakpoint spacing actually used:
`kwargs_bspline = {'bkspace': std_res * nresln}` with the recomputed
`nresln` (flux.py line 586). -/
def bkspace_of (nresln std_res std_pix : ℚ) : ℚ :=
  std_res * nresln_update nresln std_res std_pix

/-! ## Calibration applier (`apply_sensfunc_spec`, flux.py lines 1202-1247) -/

/-- The telluric floor constant `1e-10` used by the applier. -/
def tell_floor : ℚ := 1 / 10 ^ 10

/-- The per-pixel telluric division
`sensfunc * (telluric > 1e-10) / (telluric + (telluric < 1e-10))`
(flux.py line 1212, and identically line 78), with the numpy booleans
broadcast to 0/1. -/
def telluric_applied (s t : ℚ) : ℚ :=
  s * (if t > tell_floor then 1 else 0) / (t + (if t < tell_floor then 1 else 0))

/-- Modelled from the spec: the spec's description of the same step,
"divide sensitivity by the supplied transmission (floor transmission at
1e-10)", i.e. `sensfunc / max(transmission, 1e-10)`.  Stated only to be
compared against `telluric_applied`. -/
def telluric_applied_floor_spec (s t : ℚ) : ℚ :=
  s / max t tell_floor

/-- `apply_sensfunc_spec(wave, counts, ivar, sensfunc, airmass, exptime,
mask=None, extinct_correct, telluric, longitude, latitude)`.
`load_extinction_data(longitude, latitude)` reads a site file, so the loaded
table enters as the parameter `ext`; the float power of the extinction factor
enters as `pow10` (see `extinction_correction_q`).  Returns
`(flam, flam_ivar, outmask)`. -/
def apply_sensfunc_spec (pow10 : ℚ → ℚ) (wave counts ivar sensfunc : List ℚ)
    (airmass exptime : ℚ) (mask : Option (List Bool)) (extinct_correct : Bool)
    (telluric : Option (List ℚ)) (longitude latitude : Option ℚ)
    (ext : ExtinctTable) : Except String (List ℚ × List ℚ × List Bool) := do
  let mask := mask.getD (ivar.map (fun v => decide (v > 0)))
  let sensfunc :=
    match telluric with
    | none => sensfunc
    | some tel => List.zipWith telluric_applied sensfunc tel
  let senstot ←
    if extinct_correct then
      match longitude, latitude with
      | some _, some _ => do
        let ext_corr ← extinction_correction_q pow10 wave airmass ext
        pure (List.zipWith (fun s e => s * e) sensfunc ext_corr)
      | _, _ =>
        Except.error "You must specify longitude and latitude if we are extinction correcting"
    else pure sensfunc
  let flam := List.zipWith (fun c s => c * s / exptime) counts senstot
  let flam_ivar := List.zipWith (fun v s => v / (s / exptime) ^ 2) ivar senstot
  let outmask := List.zipWith (fun m s => m && decide (s > 0)) mask senstot
  pure (flam, flam_ivar, outmask)

/-! ## Sensitivity-function engine
(`standard_sensfunc`, flux.py lines 457-656, and its callers
`generate_sensfunc` lines 185-329 / `generate_sensfunc_old` lines 1349-1503) -/

/-- Numpy boolean indexing `xs[mask]`. -/
def filterBy (xs : List ℚ) (m : List Bool) : List ℚ :=
  ((xs.zip m).filter (fun p => p.2)).map (fun p => p.1)

/-- The standard-star model dictionary produced by `get_standard_spectrum`
(archived spectrum, Vega model or Kurucz model; all three paths read data
files, so the result enters the embedding as data). -/
structure StdSpec where
  cal_file : String
  name : String
  std_ra : Option String
  std_dec : Option String
  wave : List ℚ
  flux : List ℚ
deriving DecidableEq

/-- External collaborators of the engine, taken as parameters: the float
transcendentals `np.log10` / `10.0 ** x`, the repository fitters
`utils.robust_polyfit_djs` (argument order: x, y, norder, maxiter, lower,
upper, maxrej; result: polynomial coefficients) and `utils.func_val`,
`pydl.bspline(...).breakpoints`, nearest-neighbour `interp1d`,
`pydl.iterfit` followed by `bset1.value(wave)` (argument order: x, y, invvar,
inmask, upper, lower, fullbkpt, maxiter, bkspace, maxrej), extrapolating
linear `interp1d`, and `get_standard_spectrum`. -/
structure FitOps where
  log10 : ℚ → ℚ
  pow10 : ℚ → ℚ
  robust_polyfit : List ℚ → List ℚ → ℕ → ℕ → ℚ → ℚ → Option ℕ → List ℚ
  func_val : List ℚ → List ℚ → List ℚ
  bspline_bkpts : List ℚ → ℚ → List ℚ
  interp_nearest : List ℚ → List ℚ → List ℚ → List ℚ
  iterfit_eval : List ℚ → List ℚ → List ℚ → List Bool → ℚ → ℚ → List ℚ → ℕ → ℚ → ℕ → List ℚ
  interp1d_extrap : List ℚ → List ℚ → List ℚ → List ℚ
  get_standard : Option String → Option ℚ → Option ℚ → Option ℚ → Except String StdSpec

/-- The hydrogen lines of the `polycorrect` patching step
(flux.py lines 551-552; a shorter list than the masking catalog, with the
bluest Balmer lines commented out in the source). -/
def lines_hydrogen : List ℚ :=
  [5407.0, 6564.6, 8224.8, 8239.2, 8203.6, 8440.3, 8469.6, 8504.8, 8547.7,
   8600.8, 8667.4, 8752.9, 8865.2, 9017.4, 9229.0, 10049.4, 10938.1, 12818.1,
   21655.0]

/-- One pixel of the first `polycorrect` patch (flux.py lines 548-560):
replace `magfunc` by the polynomial value on hydrogen-line windows and at the
clamp bounds (when the polynomial itself is strictly inside the bounds), then
on pixels with non-positive `ivar`.  Over `ℚ` every value is finite, so the
`np.isfinite` factor of `msk_badpix` is identically true. -/
def polycorrect_pixel (wid w mag poly v : ℚ) : ℚ :=
  let clean :=
    (lines_hydrogen.any (fun l => decide (|w - l| ≤ wid)) ||
      decide (mag = MAGFUNC_MAX) || decide (mag = MAGFUNC_MIN)) &&
    decide (poly > MAGFUNC_MIN) && decide (poly < MAGFUNC_MAX)
  let m1 := if clean then poly else mag
  if decide (v > 0) then m1 else poly

/-- One pixel of the second `polycorrect` patch, after the bspline fit
(flux.py lines 628-633): as `polycorrect_pixel` but without the
hydrogen-line windows. -/
def polycorrect_pixel_post (mag poly v : ℚ) : ℚ :=
  let clean :=
    (decide (mag = MAGFUNC_MAX) || decide (mag = MAGFUNC_MIN)) &&
    decide (poly > MAGFUNC_MIN) && decide (poly < MAGFUNC_MAX)
  let m1 := if clean then poly else mag
  if decide (v > 0) then m1 else poly

/-- `standard_sensfunc(wave, flux, ivar, flux_std, msk_bad, msk_star,
msk_tell, maxiter, upper, lower, poly_norder, BALM_MASK_WID, nresln,
telluric, resolution, polycorrect)`.  Returns `(sensfunc, masktot)`.
The `np.isfinite` conjuncts of `masktot` are identically true over `ℚ`
(no NaN/inf), and the plotting-only branches are dropped. -/
def standard_sensfunc (ops : FitOps) (wave flux ivar flux_std : List ℚ)
    (msk_bad msk_star msk_tell : Option (List Bool)) (maxiter : ℕ)
    (upper lower : ℚ) (poly_norder : ℕ) (BALM_MASK_WID nresln : ℚ)
    (telluric : Bool) (resolution : ℚ) (polycorrect : Bool) :
    List ℚ × List Bool :=
  let n := wave.length
  let msk_bad := msk_bad.getD (List.replicate n true)
  let msk_tell := msk_tell.getD (List.replicate n true)
  let msk_star := msk_star.getD (List.replicate n true)
  let logflux_obs := flux.map (fun f => 2.5 * ops.log10 (max f TINY))
  let logivar_obs := logflux_obs.map (fun _ => (100 : ℚ))
  let logflux_std := flux_std.map (fun f => 2.5 * ops.log10 (max f TINY))
  let magfunc := List.zipWith
    (fun s o => max (min (s - o) MAGFUNC_MAX) MAGFUNC_MIN) logflux_std logflux_obs
  let msk_magfunc := magfunc.map
    (fun m => decide (m < 0.99 * MAGFUNC_MAX) && decide (m > 0.99 * MAGFUNC_MIN))
  let masktot := List.zipWith (· && ·) msk_bad msk_magfunc
  let logivar_obs := List.zipWith (fun b v => if b then v else 0) masktot logivar_obs
  let msk_fit_sens := List.zipWith (· && ·) (List.zipWith (· && ·) masktot msk_tell) msk_star
  let poly_coeff := ops.robust_polyfit (filterBy wave msk_fit_sens)
    (filterBy magfunc msk_fit_sens) poly_norder maxiter lower upper none
  let magfunc_poly := ops.func_val poly_coeff wave
  let do_polycorrect := decide (2 * countTrue msk_fit_sens > msk_fit_sens.length) && polycorrect
  let magfunc :=
    if do_polycorrect then
      ((wave.zip magfunc).zip (magfunc_poly.zip ivar)).map
        (fun p => polycorrect_pixel BALM_MASK_WID p.1.1 p.1.2 p.2.1 p.2.2)
    else magfunc
  let magfunc :=
    if !telluric then
      let std_pix := std_pix_of wave
      let std_res := std_res_of wave resolution
      let bkspace := bkspace_of nresln std_res std_pix
      let fullbkpt := ops.bspline_bkpts wave bkspace
      let msk_bkpt := ops.interp_nearest wave (masktot.map boolToRat) fullbkpt
      let init_breakpoints :=
        ((fullbkpt.zip msk_bkpt).filter (fun p => decide (p.2 > 0.999))).map (fun p => p.1)
      let logfit1 := ops.iterfit_eval wave magfunc logivar_obs msk_fit_sens
        upper lower init_breakpoints maxiter bkspace 5
      let magfunc2 := logfit1.map (fun m => max (min m MAGFUNC_MAX) MAGFUNC_MIN)
      if do_polycorrect then
        (magfunc2.zip (magfunc_poly.zip ivar)).map
          (fun p => polycorrect_pixel_post p.1 p.2.1 p.2.2)
      else magfunc2
    else magfunc
  let sensfunc := magfunc.map (fun m => ops.pow10 (0.4 * m))
  (sensfunc, masktot)

/-- The Python keyword-argument convention at the `get_mask` call sites: the
recombination-line flag parameter of `get_mask` is named `mask_star`
(flux.py line 331), so passing the flag under any other keyword raises a
`TypeError` before the body of `get_mask` runs. -/
def get_mask_star_kwarg (kw : String) (value : Bool) : Except String Bool :=
  if kw = "mask_star" then Except.ok value
  else Except.error ("TypeError: get_mask() got an unexpected keyword argument " ++ kw)

/-- The sensitivity-function record `sens_dict` assembled by
`generate_sensfunc` (flux.py lines 310-324). -/
structure SensDict where
  wave : List ℚ
  sensfunc : List ℚ
  wave_min : ℚ
  wave_max : ℚ
  exptime : ℚ
  airmass : ℚ
  std_file : Option String
  std_ra : Option String
  std_dec : Option String
  std_name : String
  cal_file : String
  flux_true : List ℚ
  mask_sens : List Bool
deriving DecidableEq

/-- `generate_sensfunc(wave, counts, counts_ivar, airmass, exptime,
longitude, latitude, telluric, star_type, star_mag, ra, dec, std_file,
poly_norder, BALM_MASK_WID, nresln, resolution, trans_thresh, polycorrect)`.
`load_extinction_data(longitude, latitude)` enters as the table `ext`; the
convolved sky transmission of the near-infrared telluric mask enters as
`trans_final` (see `get_mask`).  Note the internal `get_mask` call passes the
literal `0.9` as `trans_thresh` (flux.py line 287), not the `trans_thresh`
parameter. -/
def generate_sensfunc (ops : FitOps) (wave counts counts_ivar : List ℚ)
    (airmass exptime : ℚ) (ext : ExtinctTable) (telluric : Bool)
    (star_type : Option String) (star_mag ra dec : Option ℚ)
    (std_file : Option String) (poly_norder : ℕ)
    (BALM_MASK_WID nresln resolution trans_thresh : ℚ) (polycorrect : Bool)
    (trans_final : List ℚ) : Except String SensDict := do
  let flux_star := counts.map (fun c => c / exptime)
  let ivar_star := counts_ivar.map (fun v => v * exptime ^ 2)
  let ext_corr ← extinction_correction_q ops.pow10 wave airmass ext
  let flux_star := List.zipWith (fun f e => f * e) flux_star ext_corr
  let ivar_star := List.zipWith (fun v e => v / e ^ 2) ivar_star ext_corr
  let std ← ops.get_standard star_type star_mag ra dec
  let flux_true := ops.interp1d_extrap std.wave std.flux wave
  let flux_true :=
    if npMin flux_true ≤ 0 then
      ops.func_val (ops.robust_polyfit std.wave std.flux 8 50 3 3 (some 3)) wave
    else flux_true
  let mstar ← get_mask_star_kwarg "mask_star" true
  let msks := get_mask wave flux_star ivar_star mstar true BALM_MASK_WID 0.9 trans_final
  let (sens, mask_sens) := standard_sensfunc ops wave flux_star ivar_star flux_true
    (some msks.bad) (some msks.star) (some msks.tell) 35 3 3 poly_norder
    BALM_MASK_WID nresln telluric resolution polycorrect
  pure { wave := wave, sensfunc := sens, wave_min := npMin wave,
         wave_max := npMax wave, exptime := exptime, airmass := airmass,
         std_file := std_file, std_ra := std.std_ra, std_dec := std.std_dec,
         std_name := std.name, cal_file := std.cal_file,
         flux_true := flux_true, mask_sens := mask_sens }

/-- `generate_sensfunc_old` (flux.py lines 1349-1503): line for line the same
body as `generate_sensfunc`, except that its `get_mask` call passes the
recombination-line flag as `mask_balmer=True` (flux.py line 1460) instead of
`mask_star=True`. -/
def generate_sensfunc_old (ops : FitOps) (wave counts counts_ivar : List ℚ)
    (airmass exptime : ℚ) (ext : ExtinctTable) (telluric : Bool)
    (star_type : Option String) (star_mag ra dec : Option ℚ)
    (std_file : Option String) (poly_norder : ℕ)
    (BALM_MASK_WID nresln resolution trans_thresh : ℚ) (polycorrect : Bool)
    (trans_final : List ℚ) : Except String SensDict := do
  let flux_star := counts.map (fun c => c / exptime)
  let ivar_star := counts_ivar.map (fun v => v * exptime ^ 2)
  let ext_corr ← extinction_correction_q ops.pow10 wave airmass ext
  let flux_star := List.zipWith (fun f e => f * e) flux_star ext_corr
  let ivar_star := List.zipWith (fun v e => v / e ^ 2) ivar_star ext_corr
  let std ← ops.get_standard star_type star_mag ra dec
  let flux_true := ops.interp1d_extrap std.wave std.flux wave
  let flux_true :=
    if npMin flux_true ≤ 0 then
      ops.func_val (ops.robust_polyfit std.wave std.flux 8 50 3 3 (some 3)) wave
    else flux_true
  let mstar ← get_mask_star_kwarg "mask_balmer" true
  let msks := get_mask wave flux_star ivar_star mstar true BALM_MASK_WID 0.9 trans_final
  let (sens, mask_sens) := standard_sensfunc ops wave flux_star ivar_star flux_true
    (some msks.bad) (some msks.star) (some msks.tell) 35 3 3 poly_norder
    BALM_MASK_WID nresln telluric resolution polycorrect
  pure { wave := wave, sensfunc := sens, wave_min := npMin wave,
         wave_max := npMax wave, exptime := exptime, airmass := airmass,
         std_file := std_file, std_ra := std.std_ra, std_dec := std.std_dec,
         std_name := std.name, cal_file := std.cal_file,
         flux_true := flux_true, mask_sens := mask_sens }

/-! ## Standard-star catalog resolver
(`find_standard_file`, flux.py lines 704-786) -/

/-- One row of a standard-star catalog table (`File`, `Name`, `RA_2000`,
`DEC_2000`). -/
structure StarEntry where
  File : String
  Name : String
  RA_2000 : String
  DEC_2000 : String
deriving DecidableEq

/-- A loaded catalog: the path returned by the loader plus its table rows.
The three loaders (`load_xshooter`, `load_calspec`, `load_esofil`) read data
files, so the catalogs enter the embedding as data. -/
structure Catalog where
  path : String
  entries : List StarEntry
deriving DecidableEq

/-- The dictionary built for a matched standard (flux.py lines 761-764). -/
structure StdRecord where
  cal_file : String
  name : String
  std_source : String
  std_ra : String
  std_dec : String
deriving DecidableEq

/-- The running `closest` diagnostic (flux.py lines 747, 770-776). -/
structure ClosestInfo where
  sep : ℚ
  name : String
  ra : String
  dec : String
deriving DecidableEq

/-- The possible outcomes of `find_standard_file`: a matched record
(`check=False`), `None` plus the closest-candidate diagnostic
(`check=False`), the plain booleans (`check=True`), or the astropy failure
on an empty coordinate list. -/
inductive FindResult where
  | matched (d : StdRecord)
  | noMatch (closest : ClosestInfo)
  | checkTrue
  | checkFalse
  | emptyCatalog
deriving DecidableEq

/-- `coordinates.match_coordinates_sky(obj_coord, star_coords,
nthneighbor=1)`: the entry of the catalog nearest to the query.  The angular
separation of the query to each entry is abstracted as the function `sep`
(units: arcmin); ties keep the first entry. -/
def catNearest (sep : StarEntry → ℚ) : List StarEntry → Option StarEntry
  | [] => none
  | e :: es => some (es.foldl (fun b x => if sep x < sep b then x else b) e)

/-- The matched-standard dictionary (flux.py lines 761-764):
`cal_file = os.path.join(path, File)` with the loader paths ending in `/`. -/
def mkStdRecord (tag : String) (cat : Catalog) (e : StarEntry) : StdRecord :=
  ⟨cat.path ++ e.File, e.Name, tag, e.RA_2000, e.DEC_2000⟩

/-- `closest = dict(sep=999 * units.deg)` — 999 degrees in arcmin. -/
def closest_init : ClosestInfo := ⟨59940, "", "", ""⟩

/-- The loop body of `find_standard_file` over the priority-ordered
`(source tag, catalog)` list: first catalog whose nearest entry is strictly
within `toler` returns (`True` in check mode, the record otherwise); a
non-matching catalog updates the running closest candidate when its nearest
separation is strictly smaller. -/
def findLoop (sep : StarEntry → ℚ) (toler : ℚ) (check : Bool) :
    List (String × Catalog) → ClosestInfo → FindResult
  | [], closest => if check then .checkFalse else .noMatch closest
  | (tag, cat) :: rest, closest =>
    match catNearest sep cat.entries with
    | none => .emptyCatalog
    | some e =>
      if sep e < toler then
        if check then .checkTrue else .matched (mkStdRecord tag cat e)
      else
        findLoop sep toler check rest
          (if sep e < closest.sep then ⟨sep e, e.Name, e.RA_2000, e.DEC_2000⟩ else closest)

/-- `find_standard_file(ra, dec, toler, check)` with the fixed priority order
`std_sets = [load_xshooter, load_calspec, load_esofil]`,
`std_file_source = ['xshooter', 'calspec', 'eso']` (flux.py lines 736-737). -/
def find_standard_file (sep : StarEntry → ℚ) (toler : ℚ) (check : Bool)
    (xshooter calspec esofil : Catalog) : FindResult :=
  findLoop sep toler check
    [("xshooter", xshooter), ("calspec", calspec), ("eso", esofil)] closest_init

/-! ## Concrete test fixtures used by the closed theorems below -/

/-- A trivial but fully concrete instantiation of the collaborator bundle,
used to evaluate the engine end to end on small inputs. -/
def testOps : FitOps where
  log10 := fun _ => 0
  pow10 := fun _ => 1
  robust_polyfit := fun _ _ _ _ _ _ _ => []
  func_val := fun _ xq => xq.map (fun _ => 0)
  bspline_bkpts := fun w _ => w
  interp_nearest := fun _ _ xq => xq.map (fun _ => 1)
  iterfit_eval := fun _ y _ _ _ _ _ _ _ _ => y
  interp1d_extrap := fun _ _ xq => xq.map (fun _ => 1)
  get_standard := fun _ _ _ _ =>
    Except.ok ⟨"calfile", "teststar", none, none, [1, 2], [1, 1]⟩

/-! ## Helper lemmas -/

theorem get?_zipWith_some {α β γ : Type} (f : α → β → γ) {as : List α} {bs : List β}
    {i : ℕ} {a : α} {b : β} (ha : as.get? i = some a) (hb : bs.get? i = some b) :
    (List.zipWith f as bs).get? i = some (f a b) := by
  rw [List.get?_zipWith_eq_some]
  exact ⟨a, b, ha, hb, rfl⟩

/-! ## Claim theorems -/

-- Batteries marks the arithmetic of `Rat` `@[irreducible]`; re-enable
-- unfolding locally so `decide` can evaluate the embedding on concrete
-- rational inputs.
attribute [local semireducible] Rat.sub Rat.add Rat.mul Rat.inv Rat.ofScientific

/-- C1: the claim says that whenever `nresln * std_res < std_pix` the engine
recomputes `nresln` so that the effective breakpoint spacing
`std_res * nresln` is at least `std_pix`; for `nresln=20`, `std_res=0.1`,
`std_pix=5` (realised by the grid `[295, 300, 305]` at `resolution=3000`)
the recomputed spacing would have to be `>= 5`.  The code instead sets
`nresln = std_res / std_pix` (flux.py line 583), an inverted ratio that
shrinks the spacing to `0.002`, contradicting the code's own warning that
the breakpoint spacing should be larger than one pixel. -/
theorem nresln_update_spacing_bug :
    std_pix_of [295, 300, 305] = 5 ∧
    std_res_of [295, 300, 305] 3000 = 1 / 10 ∧
    (20 : ℚ) * (1 / 10) < 5 ∧
    nresln_update 20 (1 / 10) 5 = 1 / 50 ∧
    bkspace_of 20 (1 / 10) 5 = 1 / 500 ∧
    ¬ (5 : ℚ) ≤ bkspace_of 20 (1 / 10) 5 := by
  decide

/-- C3: the claim says every query wavelength outside the extinction curve's
span receives the nearest in-range magnitude, including when the query array
overhangs the curve on both ends at once.  On the curve covering
`[4000, 5000]` with magnitude `1` and queries `[3000, 4500, 6000]` the code
fixes the low end but leaves the high end at the fill value `0` (correction
factor `1`), because the high-wavelength branch of `adjust_mag_edges` is an
`elif` that is skipped whenever the low end also needed extrapolation
(flux.py lines 690-695). -/
theorem extinction_correction_high_end_not_extrapolated :
    extinction_correction_mag [3000, 4500, 6000] 1 ⟨[4000, 5000], [1, 1]⟩ =
      Except.ok [1, 1, 0] ∧
    interp1d_fill0 [4000, 5000] [1, 1] 4500 = 1 ∧
    (0 : ℚ) ≠ 1 := by
  decide

/-- C8: `extinction_correction` raises its hard error whenever
`airmass < 1`, for every wavelength array and extinction curve, before any
correction is computed (flux.py lines 679-680). -/
theorem extinction_correction_bad_airmass (wave : List ℚ) (airmass : ℚ)
    (ext : ExtinctTable) (h : airmass < 1) :
    extinction_correction_mag wave airmass ext =
      Except.error "Bad airmass value in extinction_correction" ∧
    extinction_correction wave airmass ext =
      Except.error "Bad airmass value in extinction_correction" := by
  constructor
  · simp [extinction_correction_mag, h]
  · simp [extinction_correction, extinction_correction_mag, h, Except.map]

theorem extinction_correction_bad_airmass_witness :
    (1 / 2 : ℚ) < 1 ∧
    (extinction_correction_mag [3000] (1 / 2) ⟨[4000, 5000], [1, 1]⟩ =
        Except.error "Bad airmass value in extinction_correction" ∧
      extinction_correction [3000] (1 / 2) ⟨[4000, 5000], [1, 1]⟩ =
        Except.error "Bad airmass value in extinction_correction") :=
  ⟨by decide, extinction_correction_bad_airmass [3000] (1 / 2) ⟨[4000, 5000], [1, 1]⟩ (by decide)⟩

/-- C4 counterexample: the claim's formula
`sens_total = sensfunc / max(transmission, 1e-10)` fails at
`sensfunc = 1`, `transmission = 0`: the code's expression
`sensfunc * (telluric > 1e-10) / (telluric + (telluric < 1e-10))` gives `0`
while the claimed floored division gives `1e10`. -/
theorem telluric_applied_floor_counterexample :
    telluric_applied 1 0 = 0 ∧
    telluric_applied_floor_spec 1 0 = 10 ^ 10 ∧
    (0 : ℚ) ≠ 10 ^ 10 := by
  decide

/-- C4 amended: with a precomputed telluric transmission, the applier
multiplies the sensitivity pixelwise by `telluric_applied`, which equals
`sensfunc / transmission` when `transmission > 1e-10` and `0` (a hard zero,
not a floored division) when `transmission <= 1e-10`. -/
theorem telluric_applied_characterization (pow10 : ℚ → ℚ)
    (wave counts ivar sensfunc tel : List ℚ) (airmass exptime : ℚ) (s t : ℚ) :
    (apply_sensfunc_spec pow10 wave counts ivar sensfunc airmass exptime
        none false (some tel) none none ⟨[], []⟩ =
      Except.ok
        (List.zipWith (fun c s' => c * s' / exptime) counts
          (List.zipWith telluric_applied sensfunc tel),
         List.zipWith (fun v s' => v / (s' / exptime) ^ 2) ivar
          (List.zipWith telluric_applied sensfunc tel),
         List.zipWith (fun m s' => m && decide (s' > 0))
          (ivar.map (fun v => decide (v > 0)))
          (List.zipWith telluric_applied sensfunc tel))) ∧
    (tell_floor < t → telluric_applied s t = s / t) ∧
    (t ≤ tell_floor → telluric_applied s t = 0) := by
  refine ⟨rfl, fun h => ?_, fun h => ?_⟩
  · simp [telluric_applied, h, asymm h]
  · simp [telluric_applied, not_lt.mpr h]

theorem telluric_applied_characterization_witness :
    tell_floor < (1 : ℚ) ∧
    telluric_applied 1 1 = 1 / 1 ∧
    apply_sensfunc_spec (fun x => x) [1] [1] [1] [1] 1 1 none false (some [1])
        none none ⟨[], []⟩ =
      Except.ok
        (List.zipWith (fun c s' => c * s' / (1 : ℚ)) [1]
          (List.zipWith telluric_applied [1] [1]),
         List.zipWith (fun v s' => v / (s' / (1 : ℚ)) ^ 2) [1]
          (List.zipWith telluric_applied [1] [1]),
         List.zipWith (fun m s' => m && decide (s' > 0))
          (([1] : List ℚ).map (fun v => decide (v > 0)))
          (List.zipWith telluric_applied [1] [1])) :=
  ⟨by decide,
   (telluric_applied_characterization (fun x => x) [1] [1] [1] [1] [1] 1 1 1 1).2.1 (by decide),
   (telluric_applied_characterization (fun x => x) [1] [1] [1] [1] [1] 1 1 1 1).1⟩

/-- C2 counterexample: on the claim's concrete scenario
(`counts=[10,-5,20]`, `ivar=[1,1,0]`, `sens_total=[2,2,2]`, `exptime=1`)
the applier returns `flam=[20,-10,40]` and `outmask=[true,true,false]`, not
the claimed `flam=[20,0,0]` and `outmask=[true,false,false]`: the flux is
never zeroed, and the pixel with negative counts stays unmasked. -/
theorem apply_sensfunc_spec_scenario_counterexample :
    apply_sensfunc_spec (fun x => x) [1, 2, 3] [10, -5, 20] [1, 1, 0] [2, 2, 2] 1 1
        none false none none none ⟨[], []⟩ =
      Except.ok ([20, -10, 40], [1 / 4, 1 / 4, 0], [true, true, false]) ∧
    ¬ (([20, -10, 40] : List ℚ) = [20, 0, 0] ∧
       ([true, true, false] : List Bool) = [true, false, false]) := by
  decide

/-- C2 amended: the applier does not zero the returned flux; at every pixel
`flam = counts * sens_total / exptime`, the output mask (not the flux) flags
`ivar <= 0` and `sens_total <= 0` pixels as `false`, and the returned
flux inverse-variance is `0` wherever `ivar = 0` (stated for positive
sensitivity, where the float quotient is well defined). -/
theorem apply_sensfunc_spec_masking_law (pow10 : ℚ → ℚ)
    (wave counts ivar sensfunc : List ℚ) (airmass exptime : ℚ) (i : ℕ)
    (ci vi si : ℚ) (hexp : 0 < exptime) (hci : counts.get? i = some ci)
    (hvi : ivar.get? i = some vi) (hsi : sensfunc.get? i = some si) :
    ∃ flam flam_ivar outmask,
      apply_sensfunc_spec pow10 wave counts ivar sensfunc airmass exptime
          none false none none none ⟨[], []⟩ =
        Except.ok (flam, flam_ivar, outmask) ∧
      flam.get? i = some (ci * si / exptime) ∧
      outmask.get? i = some (decide (vi > 0) && decide (si > 0)) ∧
      (vi = 0 → 0 < si → flam_ivar.get? i = some 0) := by
  refine ⟨_, _, _, rfl, ?_, ?_, ?_⟩
  · exact get?_zipWith_some _ hci hsi
  · have hm : (ivar.map (fun v => decide (v > 0))).get? i = some (decide (vi > 0)) := by
      rw [List.get?_map, hvi]; rfl
    exact get?_zipWith_some _ hm hsi
  · intro hv _
    have h2 := get?_zipWith_some (fun v s => v / (s / exptime) ^ 2) hvi hsi
    rw [hv] at h2
    simpa using h2

theorem apply_sensfunc_spec_masking_law_witness :
    (0 : ℚ) < 1 ∧
    ([10, -5, 20] : List ℚ).get? 2 = some 20 ∧
    ([1, 1, 0] : List ℚ).get? 2 = some 0 ∧
    ([2, 2, 2] : List ℚ).get? 2 = some 2 ∧
    (∃ flam flam_ivar outmask,
      apply_sensfunc_spec (fun x => x) [1, 2, 3] [10, -5, 20] [1, 1, 0] [2, 2, 2] 1 1
          none false none none none ⟨[], []⟩ =
        Except.ok (flam, flam_ivar, outmask) ∧
      flam.get? 2 = some (20 * 2 / 1) ∧
      outmask.get? 2 = some (decide ((0 : ℚ) > 0) && decide ((2 : ℚ) > 0)) ∧
      ((0 : ℚ) = 0 → (0 : ℚ) < 2 → flam_ivar.get? 2 = some 0)) :=
  ⟨by decide, rfl, rfl, rfl,
   apply_sensfunc_spec_masking_law (fun x => x) [1, 2, 3] [10, -5, 20] [1, 1, 0]
     [2, 2, 2] 1 1 2 20 0 2 (by decide) rfl rfl rfl⟩

/-- C7: with `mask_star=True`, the recombination-line mask is `false` at a
pixel exactly when its wavelength is within `BALM_MASK_WID` of some
catalogued hydrogen line, boundary inclusive. -/
theorem get_mask_star_boundary (wave flux ivar : List ℚ) (mask_tell : Bool)
    (BALM_MASK_WID trans_thresh : ℚ) (trans_final : List ℚ) (i : ℕ) (w : ℚ)
    (hw : wave.get? i = some w) :
    ((get_mask wave flux ivar true mask_tell BALM_MASK_WID trans_thresh
        trans_final).star.get? i = some false) ↔
      ∃ l ∈ recomb_lines, |w - l| ≤ BALM_MASK_WID := by
  have hstar : (get_mask wave flux ivar true mask_tell BALM_MASK_WID trans_thresh
      trans_final).star = wave.map (starPixelGood BALM_MASK_WID) := rfl
  rw [hstar, List.get?_map, hw]
  simp [starPixelGood, List.any_eq_true]

theorem get_mask_star_boundary_witness :
    ([6569.5, 6570.7] : List ℚ).get? 0 = some 6569.5 ∧
    (get_mask [6569.5, 6570.7] [1, 1] [1, 1] true true 5 0.9 []).star = [false, true] ∧
    (((get_mask [6569.5, 6570.7] [1, 1] [1, 1] true true 5 0.9 []).star.get? 0 =
        some false) ↔ ∃ l ∈ recomb_lines, |(6569.5 : ℚ) - l| ≤ 5) :=
  ⟨rfl, by decide,
   get_mask_star_boundary [6569.5, 6570.7] [1, 1] [1, 1] true 5 0.9 [] 0 6569.5 rfl⟩

/-- C9: for a fixed wavelength grid and extinction curve and any airmasses
`am1, am2 >= 1`, the interpolated magnitudes are the same and the correction
scales as `correction(am2) = correction(am1) * 10^(0.4 * mag_ext * (am2 - am1))`
pixel by pixel — the correction is the exponential `10^(0.4*mag_ext*airmass)`. -/
theorem extinction_correction_airmass_scaling (wave : List ℚ) (ext : ExtinctTable)
    (am1 am2 : ℚ) (h1 : 1 ≤ am1) (h2 : 1 ≤ am2) (mags : List ℚ)
    (hm : extinction_correction_mag wave am1 ext = Except.ok mags) :
    extinction_correction wave am1 ext =
      Except.ok (mags.map (fun m => ext_flux_corr m am1)) ∧
    extinction_correction wave am2 ext =
      Except.ok (mags.map (fun m =>
        ext_flux_corr m am1 *
          (10 : ℝ) ^ ((0.4 : ℝ) * (m : ℝ) * ((am2 : ℝ) - (am1 : ℝ))))) := by
  have hnot2 : ¬ am2 < 1 := not_lt.mpr h2
  have hm2 : extinction_correction_mag wave am2 ext = Except.ok mags := by
    have hnot1 : ¬ am1 < 1 := not_lt.mpr h1
    rw [extinction_correction_mag, if_neg hnot1] at hm
    rw [extinction_correction_mag, if_neg hnot2, hm]
  constructor
  · rw [extinction_correction, hm, Except.map]
  · rw [extinction_correction, hm2, Except.map]
    have : ∀ m : ℚ, ext_flux_corr m am2 =
        ext_flux_corr m am1 *
          (10 : ℝ) ^ ((0.4 : ℝ) * (m : ℝ) * ((am2 : ℝ) - (am1 : ℝ))) := by
      intro m
      unfold ext_flux_corr
      rw [← Real.rpow_add (by norm_num : (0 : ℝ) < 10)]
      ring_nf
    simp only [this]

theorem extinction_correction_airmass_scaling_witness :
    (1 : ℚ) ≤ 1 ∧ (1 : ℚ) ≤ 2 ∧
    extinction_correction_mag [4500] 1 ⟨[4000, 5000], [1, 1]⟩ = Except.ok [1] ∧
    (extinction_correction [4500] 1 ⟨[4000, 5000], [1, 1]⟩ =
        Except.ok (([1] : List ℚ).map (fun m => ext_flux_corr m 1)) ∧
      extinction_correction [4500] 2 ⟨[4000, 5000], [1, 1]⟩ =
        Except.ok (([1] : List ℚ).map (fun m =>
          ext_flux_corr m 1 *
            (10 : ℝ) ^ ((0.4 : ℝ) * (m : ℝ) * (((2 : ℚ) : ℝ) - ((1 : ℚ) : ℝ)))))) :=
  ⟨le_refl 1, by decide, by decide,
   extinction_correction_airmass_scaling [4500] ⟨[4000, 5000], [1, 1]⟩ 1 2
     (le_refl 1) (by decide) [1] (by decide)⟩

/-- C10: the output of `generate_sensfunc` is independent of its
`trans_thresh` argument, for every collaborator bundle and every other
input, because the internal `get_mask` call passes the literal `0.9`
(flux.py line 287) instead of forwarding the parameter. -/
theorem generate_sensfunc_trans_thresh_independent (ops : FitOps)
    (wave counts counts_ivar : List ℚ) (airmass exptime : ℚ) (ext : ExtinctTable)
    (telluric : Bool) (star_type : Option String) (star_mag ra dec : Option ℚ)
    (std_file : Option String) (poly_norder : ℕ)
    (BALM_MASK_WID nresln resolution t1 t2 : ℚ) (polycorrect : Bool)
    (trans_final : List ℚ) :
    generate_sensfunc ops wave counts counts_ivar airmass exptime ext telluric
        star_type star_mag ra dec std_file poly_norder BALM_MASK_WID nresln
        resolution t1 polycorrect trans_final =
      generate_sensfunc ops wave counts counts_ivar airmass exptime ext telluric
        star_type star_mag ra dec std_file poly_norder BALM_MASK_WID nresln
        resolution t2 polycorrect trans_final :=
  rfl

/-- C5 counterexample: on a concrete input where every step before the mask
computation succeeds, `generate_sensfunc_old` stops with the `TypeError`
for its `mask_balmer` keyword while `generate_sensfunc` returns a
`sens_dict`; the two generators are not behaviorally equivalent. -/
theorem generate_sensfunc_old_not_equivalent_counterexample :
    generate_sensfunc_old testOps [4000, 5000, 6000] [1, 1, 1] [1, 1, 1] 1 1
        ⟨[3500, 6500], [1, 1]⟩ true (some "A0") (some 1) none none none 4 5 20
        3000 0.9 false [] =
      Except.error "TypeError: get_mask() got an unexpected keyword argument mask_balmer" ∧
    (generate_sensfunc testOps [4000, 5000, 6000] [1, 1, 1] [1, 1, 1] 1 1
        ⟨[3500, 6500], [1, 1]⟩ true (some "A0") (some 1) none none none 4 5 20
        3000 0.9 false []).isOk = true ∧
    generate_sensfunc_old testOps [4000, 5000, 6000] [1, 1, 1] [1, 1, 1] 1 1
        ⟨[3500, 6500], [1, 1]⟩ true (some "A0") (some 1) none none none 4 5 20
        3000 0.9 false [] ≠
      generate_sensfunc testOps [4000, 5000, 6000] [1, 1, 1] [1, 1, 1] 1 1
        ⟨[3500, 6500], [1, 1]⟩ true (some "A0") (some 1) none none none 4 5 20
        3000 0.9 false [] := by
  decide

/-- C5 amended: `generate_sensfunc_old` is not equivalent to
`generate_sensfunc`: whenever the steps before its `get_mask` call succeed
(`airmass >= 1` so the extinction correction does not error, and the
standard-star spectrum resolves), it raises the `TypeError` for the
unexpected keyword `mask_balmer` and never returns a `sens_dict`. -/
theorem generate_sensfunc_old_type_error (ops : FitOps)
    (wave counts counts_ivar : List ℚ) (airmass exptime : ℚ) (ext : ExtinctTable)
    (telluric : Bool) (star_type : Option String) (star_mag ra dec : Option ℚ)
    (std_file : Option String) (poly_norder : ℕ)
    (BALM_MASK_WID nresln resolution trans_thresh : ℚ) (polycorrect : Bool)
    (trans_final : List ℚ) (std : StdSpec) (hair : 1 ≤ airmass)
    (hstd : ops.get_standard star_type star_mag ra dec = Except.ok std) :
    generate_sensfunc_old ops wave counts counts_ivar airmass exptime ext telluric
        star_type star_mag ra dec std_file poly_norder BALM_MASK_WID nresln
        resolution trans_thresh polycorrect trans_final =
      Except.error "TypeError: get_mask() got an unexpected keyword argument mask_balmer" := by
  have hnot : ¬ airmass < 1 := not_lt.mpr hair
  have hkw : get_mask_star_kwarg "mask_balmer" true =
      Except.error "TypeError: get_mask() got an unexpected keyword argument mask_balmer" := rfl
  simp [generate_sensfunc_old, extinction_correction_q, extinction_correction_mag,
        hnot, hstd, hkw, Except.map, Except.bind, bind]

theorem generate_sensfunc_old_type_error_witness :
    (1 : ℚ) ≤ 1 ∧
    testOps.get_standard (some "A0") (some 1) none none =
      Except.ok ⟨"calfile", "teststar", none, none, [1, 2], [1, 1]⟩ ∧
    generate_sensfunc_old testOps [4000, 5000, 6000] [1, 1, 1] [1, 1, 1] 1 1
        ⟨[3500, 6500], [1, 1]⟩ true (some "A0") (some 1) none none none 4 5 20
        3000 0.9 false [] =
      Except.error "TypeError: get_mask() got an unexpected keyword argument mask_balmer" :=
  ⟨le_refl 1, rfl,
   generate_sensfunc_old_type_error testOps [4000, 5000, 6000] [1, 1, 1] [1, 1, 1]
     1 1 ⟨[3500, 6500], [1, 1]⟩ true (some "A0") (some 1) none none none 4 5 20
     3000 0.9 false [] ⟨"calfile", "teststar", none, none, [1, 2], [1, 1]⟩
     (le_refl 1) rfl⟩

theorem findLoop_nil (sep : StarEntry → ℚ) (toler : ℚ) (check : Bool)
    (closest : ClosestInfo) :
    findLoop sep toler check [] closest =
      if check then FindResult.checkFalse else FindResult.noMatch closest := rfl

theorem findLoop_cons (sep : StarEntry → ℚ) (toler : ℚ) (check : Bool)
    (tag : String) (cat : Catalog) (rest : List (String × Catalog))
    (closest : ClosestInfo) (e : StarEntry)
    (hcat : catNearest sep cat.entries = some e) :
    findLoop sep toler check ((tag, cat) :: rest) closest =
      if sep e < toler then
        (if check then FindResult.checkTrue
         else FindResult.matched (mkStdRecord tag cat e))
      else
        findLoop sep toler check rest
          (if sep e < closest.sep then ⟨sep e, e.Name, e.RA_2000, e.DEC_2000⟩
           else closest) := by
  rw [findLoop, hcat]

/-- C6: the resolver searches its catalogs in the fixed priority order
(xshooter, calspec, eso) and returns the record of the first catalog whose
nearest entry is strictly within the tolerance; when none is, it returns
the no-match outcome carrying the single smallest-separation candidate
across all three catalogs; and in check mode it returns exactly the boolean
"some catalog matches within tolerance" without building a record.  The
separation bound `< 59940` arcmin (the `999 deg` initialisation) always
holds for real angular separations, which are at most `180 deg`. -/
theorem find_standard_file_contract (sep : StarEntry → ℚ) (toler : ℚ)
    (xcat ccat ecat : Catalog) (ex ec ee : StarEntry)
    (hx : catNearest sep xcat.entries = some ex)
    (hc : catNearest sep ccat.entries = some ec)
    (he : catNearest sep ecat.entries = some ee)
    (bx : sep ex < 59940) :
    (find_standard_file sep toler true xcat ccat ecat =
      (if sep ex < toler ∨ sep ec < toler ∨ sep ee < toler then
        FindResult.checkTrue else FindResult.checkFalse)) ∧
    (sep ex < toler →
      find_standard_file sep toler false xcat ccat ecat =
        FindResult.matched (mkStdRecord "xshooter" xcat ex)) ∧
    (¬ sep ex < toler → sep ec < toler →
      find_standard_file sep toler false xcat ccat ecat =
        FindResult.matched (mkStdRecord "calspec" ccat ec)) ∧
    (¬ sep ex < toler → ¬ sep ec < toler → sep ee < toler →
      find_standard_file sep toler false xcat ccat ecat =
        FindResult.matched (mkStdRecord "eso" ecat ee)) ∧
    (¬ sep ex < toler → ¬ sep ec < toler → ¬ sep ee < toler →
      ∃ cl : ClosestInfo,
        find_standard_file sep toler false xcat ccat ecat =
          FindResult.noMatch cl ∧
        cl.sep = min (sep ex) (min (sep ec) (sep ee)) ∧
        (cl = ⟨sep ex, ex.Name, ex.RA_2000, ex.DEC_2000⟩ ∨
         cl = ⟨sep ec, ec.Name, ec.RA_2000, ec.DEC_2000⟩ ∨
         cl = ⟨sep ee, ee.Name, ee.RA_2000, ee.DEC_2000⟩)) := by
  refine ⟨?_, ?_, ?_, ?_, ?_⟩
  · rw [find_standard_file, findLoop_cons sep toler true _ _ _ _ ex hx]
    by_cases h1 : sep ex < toler
    · simp [h1]
    · rw [if_neg h1, findLoop_cons sep toler true _ _ _ _ ec hc]
      by_cases h2 : sep ec < toler
      · simp [h1, h2]
      · rw [if_neg h2, findLoop_cons sep toler true _ _ _ _ ee he]
        by_cases h3 : sep ee < toler
        · simp [h1, h2, h3]
        · rw [if_neg h3, findLoop_nil]
          simp [h1, h2, h3]
  · intro h1
    rw [find_standard_file, findLoop_cons sep toler false _ _ _ _ ex hx, if_pos h1]
    simp
  · intro h1 h2
    rw [find_standard_file, findLoop_cons sep toler false _ _ _ _ ex hx, if_neg h1,
        findLoop_cons sep toler false _ _ _ _ ec hc, if_pos h2]
    simp
  · intro h1 h2 h3
    rw [find_standard_file, findLoop_cons sep toler false _ _ _ _ ex hx, if_neg h1,
        findLoop_cons sep toler false _ _ _ _ ec hc, if_neg h2,
        findLoop_cons sep toler false _ _ _ _ ee he, if_pos h3]
    simp
  · intro h1 h2 h3
    rw [find_standard_file, findLoop_cons sep toler false _ _ _ _ ex hx, if_neg h1,
        findLoop_cons sep toler false _ _ _ _ ec hc, if_neg h2,
        findLoop_cons sep toler false _ _ _ _ ee he, if_neg h3, findLoop_nil]
    simp only [closest_init]
    rw [if_pos bx]
    rcases lt_or_le (sep ec) (sep ex) with hce | hce
    · rw [if_pos hce]
      rcases lt_or_le (sep ee) (sep ec) with hee | hee
      · rw [if_pos hee]
        refine ⟨_, by simp, ?_, Or.inr (Or.inr rfl)⟩
        show sep ee = min (sep ex) (min (sep ec) (sep ee))
        rw [min_eq_right (le_of_lt hee), min_eq_right (le_of_lt (hee.trans hce))]
      · rw [if_neg (not_lt.mpr hee)]
        refine ⟨_, by simp, ?_, Or.inr (Or.inl rfl)⟩
        show sep ec = min (sep ex) (min (sep ec) (sep ee))
        rw [min_eq_left hee, min_eq_right (le_of_lt hce)]
    · rw [if_neg (not_lt.mpr hce)]
      rcases lt_or_le (sep ee) (sep ex) with hee | hee
      · rw [if_pos hee]
        refine ⟨_, by simp, ?_, Or.inr (Or.inr rfl)⟩
        show sep ee = min (sep ex) (min (sep ec) (sep ee))
        rw [min_eq_right (le_of_lt (lt_of_lt_of_le hee hce)),
            min_eq_right (le_of_lt hee)]
      · rw [if_neg (not_lt.mpr hee)]
        refine ⟨_, by simp, ?_, Or.inl rfl⟩
        show sep ex = min (sep ex) (min (sep ec) (sep ee))
        rw [min_eq_left (le_min hce hee)]

/-- Concrete separation function for the resolver witness: the query is 5
arcmin from star S1, 30 arcmin from star S2, 100 arcmin from anything else. -/
def sepTest : StarEntry → ℚ := fun e =>
  if e.Name = "S1" then 5 else if e.Name = "S2" then 30 else 100

def xcatTest : Catalog := ⟨"data/standards/xshooter/", [⟨"f1", "S2", "01:02:03", "+04:05:06"⟩]⟩

def ccatTest : Catalog := ⟨"data/standards/calspec/", [⟨"f2", "S1", "11:12:13", "+14:15:16"⟩]⟩

def ecatTest : Catalog := ⟨"data/standards/ESOFIL/", [⟨"f3", "S3", "21:22:23", "+24:25:26"⟩]⟩

def exTest : StarEntry := ⟨"f1", "S2", "01:02:03", "+04:05:06"⟩

def ecTest : StarEntry := ⟨"f2", "S1", "11:12:13", "+14:15:16"⟩

def eeTest : StarEntry := ⟨"f3", "S3", "21:22:23", "+24:25:26"⟩

theorem find_standard_file_contract_witness :
    catNearest sepTest xcatTest.entries = some exTest ∧
    catNearest sepTest ccatTest.entries = some ecTest ∧
    catNearest sepTest ecatTest.entries = some eeTest ∧
    sepTest exTest < 59940 ∧
    ((find_standard_file sepTest 20 true xcatTest ccatTest ecatTest =
      (if sepTest exTest < 20 ∨ sepTest ecTest < 20 ∨ sepTest eeTest < 20 then
        FindResult.checkTrue else FindResult.checkFalse)) ∧
    (sepTest exTest < 20 →
      find_standard_file sepTest 20 false xcatTest ccatTest ecatTest =
        FindResult.matched (mkStdRecord "xshooter" xcatTest exTest)) ∧
    (¬ sepTest exTest < 20 → sepTest ecTest < 20 →
      find_standard_file sepTest 20 false xcatTest ccatTest ecatTest =
        FindResult.matched (mkStdRecord "calspec" ccatTest ecTest)) ∧
    (¬ sepTest exTest < 20 → ¬ sepTest ecTest < 20 → sepTest eeTest < 20 →
      find_standard_file sepTest 20 false xcatTest ccatTest ecatTest =
        FindResult.matched (mkStdRecord "eso" ecatTest eeTest)) ∧
    (¬ sepTest exTest < 20 → ¬ sepTest ecTest < 20 → ¬ sepTest eeTest < 20 →
      ∃ cl : ClosestInfo,
        find_standard_file sepTest 20 false xcatTest ccatTest ecatTest =
          FindResult.noMatch cl ∧
        cl.sep = min (sepTest exTest) (min (sepTest ecTest) (sepTest eeTest)) ∧
        (cl = ⟨sepTest exTest, exTest.Name, exTest.RA_2000, exTest.DEC_2000⟩ ∨
         cl = ⟨sepTest ecTest, ecTest.Name, ecTest.RA_2000, ecTest.DEC_2000⟩ ∨
         cl = ⟨sepTest eeTest, eeTest.Name, eeTest.RA_2000, eeTest.DEC_2000⟩))) :=
  ⟨rfl, rfl, rfl, by decide,
   find_standard_file_contract sepTest 20 xcatTest ccatTest ecatTest exTest
     ecTest eeTest rfl rfl rfl (by decide)⟩

end PypeItFlux
